import Mathlib

/-!
# Verification of the laser-tag robot control core (`FinalCode/pi.py`)

Shallow embedding of the IR codec, mecanum drive kinematics, motor duty
mapping, and the session/hit state machine of the robot control program,
together with proofs of its specified properties.

Durations are microseconds as natural numbers; analog quantities
(velocities, times in seconds) are rationals; GPIO pin levels are booleans.
-/

namespace Pi

/-! ## Protocol and configuration constants (pi.py, USER CONFIG section) -/

def BIT_0_BURST : ℕ := 800
def BIT_1_BURST : ℕ := 1600
def START_END_BURST : ℕ := 2400
def TOLERANCE : ℕ := 200

def MIN_DUTY_FLOOR : ℕ := 30
def PURE_DC_THRESHOLD : ℕ := 80

def COMMAND_TIMEOUT_S : ℚ := 8/10
def POWER_SAVE_TIMEOUT_S : ℚ := 10
def HIT_DISABLE_TIME : ℚ := 10

/-! ## IR transmission (`send_ir_bit`, `send_team_id`)

`send_team_id` emits a start burst, the 8 bits of the team id most
significant first (`(team_id >> (7 - i)) & 1` for `i = 0..7`), and an end
burst.  We model the transmitted frame as the list of burst durations. -/

/-- Duration of the burst `send_ir_bit` emits for a bit value. -/
def send_ir_bit (bit : ℕ) : ℕ :=
  if bit = 1 then BIT_1_BURST else BIT_0_BURST

/-- The bits of `team_id` in the order `send_team_id` sends them:
bit 7 (most significant) first. -/
def teamBits (team_id : ℕ) : List ℕ :=
  (List.range 8).map (fun i => (team_id >>> (7 - i)) &&& 1)

/-- The 10 burst durations `send_team_id` produces on the wire:
start burst, 8 data bursts, end burst. -/
def send_team_id_bursts (team_id : ℕ) : List ℕ :=
  START_END_BURST :: (teamBits team_id).map send_ir_bit ++ [START_END_BURST]

/-- `send_team_id` guarded by the hit state: when `is_hit` it returns
without transmitting anything (`none`); otherwise it transmits the frame. -/
def send_team_id (is_hit : Bool) (team_id : ℕ) : Option (List ℕ) :=
  if is_hit then none else some (send_team_id_bursts team_id)

/-! ## IR reception (`IRReceiver.process_bursts`)

`process_bursts` checks the buffer has exactly 10 bursts, that bursts 0 and
9 are within `TOLERANCE` of `START_END_BURST`, then classifies each of
bursts 1..8 as a 1 (within `TOLERANCE` of `BIT_1_BURST`) or a 0 (within
`TOLERANCE` of `BIT_0_BURST`), accumulating bit position `7 - (i - 1)`;
any other duration aborts with no event.  We model it as a partial decode
returning `some team_id` exactly when the code would call
`on_laser_hit team_id`. -/

/-- `|a - b| ≤ t` on natural microsecond durations, as the Python
`abs(x - y) <= t` on signed values. -/
def withinTol (burst target tol : ℕ) : Bool :=
  ((burst : ℤ) - (target : ℤ)).natAbs ≤ tol

/-- Decode the 8 interior bursts.  The accumulator mirrors `team_id` in the
loop; for the burst at loop index `i` (list of remaining bursts `rest`),
the bit position `7 - (i - 1)` equals `rest.length`. -/
def decodeBits : List ℕ → ℕ → Option ℕ
  | [], acc => some acc
  | b :: rest, acc =>
    if withinTol b BIT_1_BURST TOLERANCE then
      decodeBits rest (acc ||| (1 <<< rest.length))
    else if withinTol b BIT_0_BURST TOLERANCE then
      decodeBits rest acc
    else
      none

/-- `IRReceiver.process_bursts`: `some team_id` iff the frame is valid, in
which case the code raises the hit event `on_laser_hit team_id`. -/
def process_bursts (bursts : List ℕ) : Option ℕ :=
  match bursts with
  | [s0, b1, b2, b3, b4, b5, b6, b7, b8, e9] =>
    if ¬ withinTol s0 START_END_BURST TOLERANCE ∨
       ¬ withinTol e9 START_END_BURST TOLERANCE then
      none
    else
      decodeBits [b1, b2, b3, b4, b5, b6, b7, b8] 0
  | _ => none

/-! ## Motor actuation (`apply_motor`, `stop_all_motors`, standby pins)

A motor channel's pin state: the EN pin is either under PWM with a duty in
0..255 or driven digitally high (`full`); IN1/IN2 are the direction pins. -/

/-- The four motor channels `A`/`B`/`C`/`D` (corners FL/FR/RL/RR). -/
inductive MotorName
  | A
  | B
  | C
  | D
deriving DecidableEq

/-- State of a channel's EN pin: PWM duty cycle, or digital high. -/
inductive ENState
  | pwm (duty : ℕ)
  | full
deriving DecidableEq

/-- Pin state of one motor channel. -/
structure MotorChan where
  en : ENState
  in1 : Bool
  in2 : Bool
deriving DecidableEq

/-- `clamp(v, lo, hi)` from pi.py: `max(lo, min(hi, v))`. -/
def clamp (v lo hi : ℚ) : ℚ := max lo (min hi v)

/-- `DIR_OFFSET`: per-channel static direction-sign multiplier (all 1). -/
def DIR_OFFSET : MotorName → ℚ := fun _ => 1

/-- The percentage the code computes: `pct = int(abs(norm) * 100)`
(truncation; the argument is nonnegative so this is the floor). -/
def pctOf (n : ℚ) : ℕ := (⌊|n| * 100⌋).toNat

/-- `apply_motor(name, norm)`: clamp and apply the direction offset; stop
the channel when within `1e-3` of zero; otherwise set direction pins from
the sign and drive EN fully on at or above `PURE_DC_THRESHOLD` percent, or
by PWM with the percentage floored at `MIN_DUTY_FLOOR` and converted by
`pct * 255 // 100`. -/
def apply_motor (name : MotorName) (norm : ℚ) : MotorChan :=
  let n := clamp norm (-1) 1 * DIR_OFFSET name
  if |n| < 1/1000 then
    ⟨ENState.pwm 0, false, false⟩
  else
    let forward := decide (n > 0)
    let in1 := forward
    let in2 := !forward
    let pct := pctOf n
    if PURE_DC_THRESHOLD ≤ pct then
      ⟨ENState.full, in1, in2⟩
    else
      ⟨ENState.pwm (max MIN_DUTY_FLOOR pct * 255 / 100), in1, in2⟩

/-! ## Mecanum kinematics (`drive_mecanum`) -/

/-- The four wheel values before normalization, as computed by
`drive_mecanum` (order fl, fr, rl, rr). -/
def mecanum_pre (vx vy omega : ℚ) : ℚ × ℚ × ℚ × ℚ :=
  (vy + vx + omega, -vy + vx - omega, -vy + vx + omega, vy + vx - omega)

/-- The normalization divisor `max(1.0, |fl|, |fr|, |rl|, |rr|)`. -/
def mecanum_scale (vx vy omega : ℚ) : ℚ :=
  max 1 (max |(mecanum_pre vx vy omega).1|
    (max |(mecanum_pre vx vy omega).2.1|
      (max |(mecanum_pre vx vy omega).2.2.1| |(mecanum_pre vx vy omega).2.2.2|)))

/-- The four normalized, speed-scaled wheel values `drive_mecanum` passes
to `apply_motor`. -/
def mecanum_wheels (vx vy omega max_speed : ℚ) : ℚ × ℚ × ℚ × ℚ :=
  let p := mecanum_pre vx vy omega
  let scale := mecanum_scale vx vy omega
  (p.1 / scale * max_speed, p.2.1 / scale * max_speed,
   p.2.2.1 / scale * max_speed, p.2.2.2 / scale * max_speed)

/-- `drive_mecanum`: the pin states of the four channels A..D after the
four `apply_motor` calls. -/
def drive_mecanum (vx vy omega max_speed : ℚ) :
    MotorChan × MotorChan × MotorChan × MotorChan :=
  let w := mecanum_wheels vx vy omega max_speed
  (apply_motor MotorName.A w.1, apply_motor MotorName.B w.2.1,
   apply_motor MotorName.C w.2.2.1, apply_motor MotorName.D w.2.2.2)

/-! ## Global robot state

Mirrors the module-level mutable state of pi.py: the `state` command
dictionary, `laser_tag_state`, the `in_standby` flag, the timestamps, the
motor pins and the two STBY enable pins. -/

/-- `laser_tag_state` dictionary. -/
structure LaserTagState where
  is_hit : Bool
  hit_by_team : ℕ
  hit_time : ℚ
  time_remaining : ℚ
  is_self_hit : Bool
deriving DecidableEq

/-- The whole mutable state of the program that the claims concern. -/
structure RobotState where
  /-- `state["vx"]` -/
  vx : ℚ
  /-- `state["vy"]` -/
  vy : ℚ
  /-- `state["omega"]` -/
  omega : ℚ
  /-- `state["speed"]` -/
  speed : ℚ
  /-- `state["estop"]` -/
  estop : Bool
  /-- `state["fire"]` -/
  fire : Bool
  /-- `state["team_id"]` -/
  team_id : ℕ
  /-- `laser_tag_state` -/
  laser : LaserTagState
  /-- `in_standby` flag -/
  in_standby : Bool
  /-- `last_cmd_time` -/
  last_cmd_time : ℚ
  /-- `last_input_time` -/
  last_input_time : ℚ
  /-- pin states of motor channels A, B, C, D -/
  motors : MotorChan × MotorChan × MotorChan × MotorChan
  /-- levels of the two `STBY_PINS` (9 and 11) -/
  stby : Bool × Bool
deriving DecidableEq

/-- A stopped channel: duty 0 on EN, both direction pins low. -/
def stoppedChan : MotorChan := ⟨ENState.pwm 0, false, false⟩

/-- `stop_all_motors()`: every channel gets duty 0 and both direction pins
low. -/
def stop_all_motors (s : RobotState) : RobotState :=
  { s with motors := (stoppedChan, stoppedChan, stoppedChan, stoppedChan) }

/-- `enter_standby()`: stop all motors, then write both STBY pins low.
(Does not itself set the `in_standby` flag; callers do.) -/
def enter_standby (s : RobotState) : RobotState :=
  let s := stop_all_motors s
  { s with stby := (false, false) }

/-- `exit_standby()`: write both STBY pins high.  (Does not itself clear
the `in_standby` flag; callers do.) -/
def exit_standby (s : RobotState) : RobotState :=
  { s with stby := (true, true) }

/-- Apply `drive_mecanum` to the cached command, updating the motor pins. -/
def drive_from_command (s : RobotState) : RobotState :=
  { s with motors := drive_mecanum s.vx s.vy s.omega s.speed }

/-- `on_laser_hit(attacking_team)` at wall-clock time `now`: ignored when
already hit; otherwise records the hit (marking `is_self_hit` when the
attacker id equals the robot's own `team_id`), stops all motors, and
enters standby (STBY pins low) without touching the `in_standby` flag. -/
def on_laser_hit (attacking_team : ℕ) (now : ℚ) (s : RobotState) : RobotState :=
  if s.laser.is_hit then s
  else
    let laser := { is_hit := true
                   hit_by_team := attacking_team
                   hit_time := now
                   time_remaining := HIT_DISABLE_TIME
                   is_self_hit := decide (attacking_team = s.team_id) : LaserTagState }
    enter_standby (stop_all_motors { s with laser := laser })

/-- Feeding a completed burst buffer to the receiver: decode it with
`process_bursts` and raise `on_laser_hit` on success (pi.py line 278). -/
def ir_receive (bursts : List ℕ) (now : ℚ) (s : RobotState) : RobotState :=
  match process_bursts bursts with
  | some t => on_laser_hit t now s
  | none => s

/-- First phase of a `control_loop` iteration at time `now`: the laser-tag
timer update.  While hit, recompute `time_remaining` from the wall-clock
elapsed time; once `HIT_DISABLE_TIME` has elapsed, reset the laser-tag
state, exit standby and clear `in_standby`. -/
def laser_timer_tick (now : ℚ) (s : RobotState) : RobotState :=
  if s.laser.is_hit = true then
    let elapsed := now - s.laser.hit_time
    let s := { s with laser :=
      { s.laser with time_remaining := max 0 (HIT_DISABLE_TIME - elapsed) } }
    if HIT_DISABLE_TIME ≤ elapsed then
      let s := { s with laser :=
        { is_hit := false, hit_by_team := 0, hit_time := 0
          time_remaining := 0, is_self_hit := false } }
      { exit_standby s with in_standby := false }
    else s
  else s

/-- Second phase: the motor control logic.  Stop all motors when hit,
estopped, or the command has timed out; otherwise enter standby after the
power-save timeout; otherwise drive from the cached command. -/
def motor_logic_tick (now : ℚ) (s : RobotState) : RobotState :=
  if s.laser.is_hit = true ∨ s.estop = true ∨ COMMAND_TIMEOUT_S < now - s.last_cmd_time then
    stop_all_motors s
  else if POWER_SAVE_TIMEOUT_S < now - s.last_input_time ∧ s.in_standby = false then
    { enter_standby s with in_standby := true }
  else if s.in_standby = false ∧ s.laser.is_hit = false then
    drive_from_command s
  else
    s

/-- One iteration of the `control_loop` body at wall-clock time `now`. -/
def control_tick (now : ℚ) (s : RobotState) : RobotState :=
  motor_logic_tick now (laser_timer_tick now s)

/-- An inbound command datagram: fields present in the JSON message.
Missing fields retain previous values, except the booleans which default
to false. -/
structure Msg where
  vx : Option ℚ
  vy : Option ℚ
  omega : Option ℚ
  speed : Option ℚ
  estop : Option Bool
  fire : Option Bool
  team_id : Option ℕ
  last_input_time : Option ℚ

/-- `ControlProtocol.datagram_received` at time `now`: update the command
state (clamping speed to [0,1]), stamp `last_cmd_time`, dispatch an IR
transmission thread iff `fire` and not hit (the returned flag), and exit
standby when in standby and an axis exceeds the 0.05 deadband or estop is
asserted. -/
def datagram_received (msg : Msg) (now : ℚ) (s : RobotState) : RobotState × Bool :=
  let s := { s with
    vx := msg.vx.getD s.vx
    vy := msg.vy.getD s.vy
    omega := msg.omega.getD s.omega
    speed := clamp (msg.speed.getD s.speed) 0 1
    estop := msg.estop.getD false
    fire := msg.fire.getD false
    team_id := msg.team_id.getD s.team_id
    last_cmd_time := now
    last_input_time := msg.last_input_time.getD s.last_input_time }
  let fired := s.fire && !s.laser.is_hit
  let s :=
    if s.in_standby = true ∧ (1/20 < |s.vx| ∨ 1/20 < |s.vy| ∨ 1/20 < |s.omega| ∨ s.estop = true) then
      { exit_standby s with in_standby := false }
    else s
  (s, fired)

/-- The program's state right after startup: the initial `state` and
`laser_tag_state` dictionaries, STBY pins high and motor pins low from
`setup_io`, timestamps initialized to the start time `t0`. -/
def initState (t0 : ℚ) : RobotState :=
  { vx := 0, vy := 0, omega := 0, speed := 1
    estop := false, fire := false, team_id := 1
    laser := { is_hit := false, hit_by_team := 0, hit_time := 0
               time_remaining := 0, is_self_hit := false }
    in_standby := false
    last_cmd_time := t0, last_input_time := t0
    motors := (stoppedChan, stoppedChan, stoppedChan, stoppedChan)
    stby := (true, true) }

end Pi

namespace Pi

/-! ## Helper lemmas -/

set_option maxRecDepth 10000 in
/-- Round-trip of the codec on exact burst durations, for every 8-bit id. -/
theorem roundtrip_all : ∀ t < 256, process_bursts (send_team_id_bursts t) = some t := by
  decide

set_option maxRecDepth 100000 in
/-- Corrupting one interior burst of an exact frame: a 1000 µs burst still
decodes (as bit 0, clearing bit `8 - j`), a 1001 µs burst invalidates the
frame. -/
theorem frame_corrupt_all : ∀ t < 256, ∀ j < 9, 1 ≤ j →
    process_bursts ((send_team_id_bursts t).set j 1000)
      = some (t &&& (255 ^^^ (1 <<< (8 - j)))) ∧
    process_bursts ((send_team_id_bursts t).set j 1001) = none := by
  decide

/-- Normal form of `on_laser_hit` when the robot is not already hit. -/
theorem on_laser_hit_eq (t : ℕ) (now : ℚ) (s : RobotState)
    (h : s.laser.is_hit = false) :
    on_laser_hit t now s =
      { s with
        laser := { is_hit := true, hit_by_team := t, hit_time := now
                   time_remaining := HIT_DISABLE_TIME
                   is_self_hit := decide (t = s.team_id) }
        motors := (stoppedChan, stoppedChan, stoppedChan, stoppedChan)
        stby := (false, false) } := by
  simp [on_laser_hit, h, enter_standby, stop_all_motors]

/-- The normalization divisor is at least 1. -/
theorem one_le_mecanum_scale (vx vy omega : ℚ) : 1 ≤ mecanum_scale vx vy omega :=
  le_max_left _ _

/-- Each pre-normalization wheel magnitude is at most the divisor. -/
theorem abs_pre_le_scale (vx vy omega : ℚ) :
    |(mecanum_pre vx vy omega).1| ≤ mecanum_scale vx vy omega ∧
    |(mecanum_pre vx vy omega).2.1| ≤ mecanum_scale vx vy omega ∧
    |(mecanum_pre vx vy omega).2.2.1| ≤ mecanum_scale vx vy omega ∧
    |(mecanum_pre vx vy omega).2.2.2| ≤ mecanum_scale vx vy omega := by
  unfold mecanum_scale
  refine ⟨?_, ?_, ?_, ?_⟩ <;>
    [exact le_max_of_le_right (le_max_left _ _);
     exact le_max_of_le_right (le_max_of_le_right (le_max_left _ _));
     exact le_max_of_le_right (le_max_of_le_right (le_max_of_le_right (le_max_left _ _)));
     exact le_max_of_le_right (le_max_of_le_right (le_max_of_le_right (le_max_right _ _)))]

/-- A value divided by a divisor dominating its magnitude and scaled by a
factor in `[0,1]` has magnitude at most 1. -/
theorem abs_div_scale_mul_le_one (a scale sp : ℚ) (hscale : 1 ≤ scale)
    (ha : |a| ≤ scale) (h0 : 0 ≤ sp) (h1 : sp ≤ 1) : |a / scale * sp| ≤ 1 := by
  have hpos : 0 < scale := lt_of_lt_of_le one_pos hscale
  rw [abs_mul, abs_div, abs_of_pos hpos, abs_of_nonneg h0]
  calc |a| / scale * sp ≤ 1 * sp := by
        have h2 : |a| / scale ≤ 1 := (div_le_one hpos).2 ha
        exact mul_le_mul_of_nonneg_right h2 h0
    _ = sp := one_mul sp
    _ ≤ 1 := h1

/-- The timer phase is the identity when the robot is not hit. -/
theorem laser_timer_tick_not_hit (now : ℚ) (s : RobotState)
    (h : s.laser.is_hit = false) : laser_timer_tick now s = s := by
  simp [laser_timer_tick, h]

/-- The timer phase never changes the command fields, the timestamps or
the motor pins. -/
theorem laser_timer_tick_fields (now : ℚ) (s : RobotState) :
    (laser_timer_tick now s).estop = s.estop ∧
    (laser_timer_tick now s).last_cmd_time = s.last_cmd_time ∧
    (laser_timer_tick now s).last_input_time = s.last_input_time ∧
    (laser_timer_tick now s).motors = s.motors := by
  simp only [laser_timer_tick]
  split_ifs <;> simp [exit_standby]

/-- While hit and before expiry, the timer phase only rewrites
`time_remaining` from the elapsed wall-clock time. -/
theorem laser_timer_tick_active (now : ℚ) (s : RobotState)
    (h : s.laser.is_hit = true)
    (hlt : ¬ HIT_DISABLE_TIME ≤ now - s.laser.hit_time) :
    laser_timer_tick now s =
      { s with laser := { s.laser with
          time_remaining := max 0 (HIT_DISABLE_TIME - (now - s.laser.hit_time)) } } := by
  simp [laser_timer_tick, h, hlt]

/-- On expiry the timer phase resets the laser-tag state, raises the STBY
pins and clears `in_standby`. -/
theorem laser_timer_tick_expired (now : ℚ) (s : RobotState)
    (h : s.laser.is_hit = true)
    (hge : HIT_DISABLE_TIME ≤ now - s.laser.hit_time) :
    laser_timer_tick now s =
      { s with laser := { is_hit := false, hit_by_team := 0, hit_time := 0
                          time_remaining := 0, is_self_hit := false }
               stby := (true, true)
               in_standby := false } := by
  simp [laser_timer_tick, h, hge, exit_standby]

/-- The stop branch of the motor logic. -/
theorem motor_logic_tick_stop (now : ℚ) (s : RobotState)
    (h : s.laser.is_hit = true ∨ s.estop = true ∨
      COMMAND_TIMEOUT_S < now - s.last_cmd_time) :
    motor_logic_tick now s = stop_all_motors s := by
  simp only [motor_logic_tick]
  rw [if_pos h]

/-- The motor logic never changes the laser state; when the power-save
timeout has not elapsed it changes neither `in_standby` nor the STBY
pins. -/
theorem motor_logic_tick_preserves (now : ℚ) (s : RobotState) :
    (motor_logic_tick now s).laser = s.laser ∧
    (¬ POWER_SAVE_TIMEOUT_S < now - s.last_input_time →
      (motor_logic_tick now s).in_standby = s.in_standby ∧
      (motor_logic_tick now s).stby = s.stby) := by
  simp only [motor_logic_tick]
  split_ifs with h1 h2 h3
  · simp [stop_all_motors]
  · exact ⟨by simp [enter_standby, stop_all_motors], fun hps => absurd h2.1 hps⟩
  · simp [drive_from_command]
  · simp

/-- The motor logic never raises the STBY pins. -/
theorem motor_logic_tick_stby_false (now : ℚ) (s : RobotState)
    (h : s.stby.1 = false) : (motor_logic_tick now s).stby.1 = false := by
  simp only [motor_logic_tick]
  split_ifs <;> simp [stop_all_motors, enter_standby, drive_from_command, h]

/-- Composite: a control tick while hit, before expiry, stops all motors
and only rewrites `time_remaining`. -/
theorem control_tick_hit_active (now : ℚ) (s : RobotState)
    (h : s.laser.is_hit = true)
    (hlt : ¬ HIT_DISABLE_TIME ≤ now - s.laser.hit_time) :
    control_tick now s =
      stop_all_motors { s with laser := { s.laser with
        time_remaining := max 0 (HIT_DISABLE_TIME - (now - s.laser.hit_time)) } } := by
  simp only [control_tick]
  rw [laser_timer_tick_active now s h hlt]
  exact motor_logic_tick_stop _ _ (Or.inl h)

/-- Composite: a control tick at or after expiry (with the power-save
timeout not elapsed) clears the hit state, de-latches standby and leaves
the STBY pins energized. -/
theorem control_tick_hit_expired (now : ℚ) (s : RobotState)
    (h : s.laser.is_hit = true)
    (hge : HIT_DISABLE_TIME ≤ now - s.laser.hit_time)
    (hps : ¬ POWER_SAVE_TIMEOUT_S < now - s.last_input_time) :
    (control_tick now s).laser.is_hit = false ∧
    (control_tick now s).in_standby = false ∧
    (control_tick now s).stby = (true, true) := by
  simp only [control_tick]
  rw [laser_timer_tick_expired now s h hge]
  obtain ⟨hl, hio⟩ := motor_logic_tick_preserves now
    { s with laser := { is_hit := false, hit_by_team := 0, hit_time := 0
                        time_remaining := 0, is_self_hit := false }
             stby := (true, true)
             in_standby := false }
  obtain ⟨hi, hst⟩ := hio hps
  exact ⟨by rw [hl], by rw [hi], by rw [hst]⟩

/-- The wheel formulas exactly as the specification writes them, for
comparison with the source's `mecanum_pre` (they differ in `rr`). -/
def mecanum_pre_spec (vx vy omega : ℚ) : ℚ × ℚ × ℚ × ℚ :=
  (vy + vx + omega, -vy + vx - omega, -vy + vx + omega, vy - vx - omega)

/-- Example states used to instantiate theorems with hypotheses. -/
def exampleHitState : RobotState :=
  { initState 0 with
    laser := { is_hit := true, hit_by_team := 2, hit_time := 0
               time_remaining := HIT_DISABLE_TIME, is_self_hit := false } }

/-- A state with estop asserted in the cached command. -/
def exampleEstopState : RobotState := { initState 0 with estop := true }

/-- A datagram carrying only `fire = true`. -/
def fireMsg : Msg :=
  { vx := none, vy := none, omega := none, speed := none
    estop := none, fire := some true, team_id := none, last_input_time := none }

/-! ## The claims -/

/-- C1.  IR round trip: for every `team_id` in 0..255, the 10 exact burst
durations produced by `send_team_id` decode through `process_bursts` to the
original id, raising a hit event that carries it, with `is_self_hit` true
iff the decoded id equals the robot's own configured team id. -/
theorem c1_ir_roundtrip (t : ℕ) (now : ℚ) (s : RobotState)
    (ht : t < 256) (hs : s.laser.is_hit = false) :
    process_bursts (send_team_id_bursts t) = some t ∧
    (ir_receive (send_team_id_bursts t) now s).laser.is_hit = true ∧
    (ir_receive (send_team_id_bursts t) now s).laser.hit_by_team = t ∧
    ((ir_receive (send_team_id_bursts t) now s).laser.is_self_hit = true ↔
      t = s.team_id) := by
  have hdec := roundtrip_all t ht
  have hrecv : ir_receive (send_team_id_bursts t) now s = on_laser_hit t now s := by
    simp [ir_receive, hdec]
  rw [hrecv, on_laser_hit_eq t now s hs]
  simp [hdec]

/-- Closed instance of C1 at `team_id = 5` against the startup state. -/
theorem c1_ir_roundtrip_witness :
    process_bursts (send_team_id_bursts 5) = some 5 ∧
    (ir_receive (send_team_id_bursts 5) 0 (initState 0)).laser.is_hit = true ∧
    (ir_receive (send_team_id_bursts 5) 0 (initState 0)).laser.hit_by_team = 5 ∧
    ((ir_receive (send_team_id_bursts 5) 0 (initState 0)).laser.is_self_hit = true ↔
      5 = (initState 0).team_id) :=
  c1_ir_roundtrip 5 0 (initState 0) (by decide) rfl

/-- C2 counterexample: the claim's (and spec's) fourth formula
`rr = vy - vx - omega` disagrees with the code at `vx = 1, vy = 0,
omega = 0`: the code computes `rr = vy + vx - omega = 1` while the claimed
formula gives `-1`. -/
theorem c2_rr_counterexample :
    (mecanum_pre 1 0 0).2.2.2 = 1 ∧ mecanum_pre 1 0 0 ≠ mecanum_pre_spec 1 0 0 := by
  constructor
  · norm_num [mecanum_pre]
  · intro h
    have h4 := congrArg (fun p : ℚ × ℚ × ℚ × ℚ => p.2.2.2) h
    norm_num [mecanum_pre, mecanum_pre_spec] at h4

/-- C2 (amended).  The four pre-normalization wheel values are
`fl = vy + vx + omega`, `fr = -vy + vx - omega`, `rl = -vy + vx + omega`,
`rr = vy + vx - omega`; all four are divided by
`max(1, |fl|, |fr|, |rl|, |rr|)` and multiplied by `speed_scale`, so for
`speed_scale ∈ [0,1]` no channel exceeds unit magnitude. -/
theorem c2_mecanum_amended (vx vy omega sp : ℚ) (h0 : 0 ≤ sp) (h1 : sp ≤ 1) :
    mecanum_pre vx vy omega =
      (vy + vx + omega, -vy + vx - omega, -vy + vx + omega, vy + vx - omega) ∧
    mecanum_wheels vx vy omega sp =
      ((mecanum_pre vx vy omega).1 / mecanum_scale vx vy omega * sp,
       (mecanum_pre vx vy omega).2.1 / mecanum_scale vx vy omega * sp,
       (mecanum_pre vx vy omega).2.2.1 / mecanum_scale vx vy omega * sp,
       (mecanum_pre vx vy omega).2.2.2 / mecanum_scale vx vy omega * sp) ∧
    |(mecanum_wheels vx vy omega sp).1| ≤ 1 ∧
    |(mecanum_wheels vx vy omega sp).2.1| ≤ 1 ∧
    |(mecanum_wheels vx vy omega sp).2.2.1| ≤ 1 ∧
    |(mecanum_wheels vx vy omega sp).2.2.2| ≤ 1 := by
  have hsc := one_le_mecanum_scale vx vy omega
  have habs := abs_pre_le_scale vx vy omega
  refine ⟨rfl, rfl, ?_, ?_, ?_, ?_⟩
  · exact abs_div_scale_mul_le_one _ _ _ hsc habs.1 h0 h1
  · exact abs_div_scale_mul_le_one _ _ _ hsc habs.2.1 h0 h1
  · exact abs_div_scale_mul_le_one _ _ _ hsc habs.2.2.1 h0 h1
  · exact abs_div_scale_mul_le_one _ _ _ hsc habs.2.2.2 h0 h1

/-- Closed instance of C2 (amended) at `vx = 1, vy = 1/2, omega = 0,
speed_scale = 1`. -/
theorem c2_mecanum_amended_witness :
    |(mecanum_wheels 1 (1/2) 0 1).1| ≤ 1 ∧
    |(mecanum_wheels 1 (1/2) 0 1).2.2.2| ≤ 1 :=
  ⟨(c2_mecanum_amended 1 (1/2) 0 1 (by norm_num) (by norm_num)).2.2.1,
   (c2_mecanum_amended 1 (1/2) 0 1 (by norm_num) (by norm_num)).2.2.2.2.2⟩

/-- C3.  Kinematics symmetry: `mecanum(1,0,0,1)` yields four equal positive
wheel values; `mecanum(0,0,1,1)` yields `fl = rl` positive and `fr = rr`
negative; `mecanum(0,0,0,x)` yields all-zero for every `x`. -/
theorem c3_kinematics_symmetry :
    ((mecanum_wheels 1 0 0 1).1 = (mecanum_wheels 1 0 0 1).2.1 ∧
     (mecanum_wheels 1 0 0 1).2.1 = (mecanum_wheels 1 0 0 1).2.2.1 ∧
     (mecanum_wheels 1 0 0 1).2.2.1 = (mecanum_wheels 1 0 0 1).2.2.2 ∧
     0 < (mecanum_wheels 1 0 0 1).1) ∧
    ((mecanum_wheels 0 0 1 1).1 = (mecanum_wheels 0 0 1 1).2.2.1 ∧
     0 < (mecanum_wheels 0 0 1 1).1 ∧
     (mecanum_wheels 0 0 1 1).2.1 = (mecanum_wheels 0 0 1 1).2.2.2 ∧
     (mecanum_wheels 0 0 1 1).2.1 < 0) ∧
    (∀ x : ℚ, mecanum_wheels 0 0 0 x = (0, 0, 0, 0)) := by
  refine ⟨?_, ?_, ?_⟩
  · norm_num [mecanum_wheels, mecanum_pre, mecanum_scale]
  · norm_num [mecanum_wheels, mecanum_pre, mecanum_scale]
  · intro x
    norm_num [mecanum_wheels, mecanum_pre, mecanum_scale, Prod.ext_iff]

/-- C4.  Tolerance boundary: with the other nine positions exact, an
interior burst of exactly 1000 µs decodes as bit 0 (the frame succeeds,
with bit `8 - j` of the id read as 0), while 1001 µs matches neither bit
symbol within the 200 µs tolerance and no hit event is emitted. -/
theorem c4_tolerance_boundary (t j : ℕ) (ht : t < 256) (hj1 : 1 ≤ j) (hj8 : j ≤ 8) :
    process_bursts ((send_team_id_bursts t).set j 1000)
      = some (t &&& (255 ^^^ (1 <<< (8 - j)))) ∧
    process_bursts ((send_team_id_bursts t).set j 1001) = none :=
  frame_corrupt_all t ht j (by omega) hj1

/-- Closed instance of C4 at `team_id = 170`, corrupting position 3. -/
theorem c4_tolerance_boundary_witness :
    process_bursts ((send_team_id_bursts 170).set 3 1000)
      = some (170 &&& (255 ^^^ (1 <<< 5))) ∧
    process_bursts ((send_team_id_bursts 170).set 3 1001) = none :=
  c4_tolerance_boundary 170 3 (by decide) (by decide) (by decide)

/-- C5.  Motor duty mapping: wheel values within `1e-3` of zero stop the
channel (duty 0, direction pins low); at or above 80 percent magnitude the
enable pin is driven fully on; below, the percentage is floored at
`MIN_DUTY_FLOOR = 30` and mapped to the duty `pct * 255 / 100`, which is
never below the floor's duty. -/
theorem c5_duty_mapping (name : MotorName) (v : ℚ) (hv : |v| ≤ 1) :
    (|v| < 1/1000 → apply_motor name v = stoppedChan) ∧
    (1/1000 ≤ |v| → PURE_DC_THRESHOLD ≤ pctOf v →
      (apply_motor name v).en = ENState.full) ∧
    (1/1000 ≤ |v| → pctOf v < PURE_DC_THRESHOLD →
      (apply_motor name v).en
        = ENState.pwm (max MIN_DUTY_FLOOR (pctOf v) * 255 / 100) ∧
      MIN_DUTY_FLOOR * 255 / 100 ≤ max MIN_DUTY_FLOOR (pctOf v) * 255 / 100) := by
  have hab := abs_le.mp hv
  have hcl : clamp v (-1) 1 * DIR_OFFSET name = v := by
    simp [clamp, DIR_OFFSET, min_eq_right hab.2, max_eq_right hab.1]
  refine ⟨?_, ?_, ?_⟩
  · intro hz
    simp only [apply_motor, hcl]
    rw [if_pos hz]
    rfl
  · intro hge hpct
    simp only [apply_motor, hcl]
    rw [if_neg (not_lt.mpr hge), if_pos hpct]
  · intro hge hpct
    refine ⟨?_, Nat.div_le_div_right (Nat.mul_le_mul_right 255 (le_max_left _ _))⟩
    simp only [apply_motor, hcl]
    rw [if_neg (not_lt.mpr hge), if_neg (not_le.mpr hpct)]

/-- Closed instance of C5 at `v = 1/2` (channel A, PWM regime). -/
theorem c5_duty_mapping_witness :
    (apply_motor MotorName.A (1/2)).en
      = ENState.pwm (max MIN_DUTY_FLOOR (pctOf (1/2)) * 255 / 100) ∧
    MIN_DUTY_FLOOR * 255 / 100 ≤ max MIN_DUTY_FLOOR (pctOf (1/2)) * 255 / 100 := by
  have habs : |(1/2 : ℚ)| = 1/2 := abs_of_pos (by norm_num)
  have hpct : pctOf (1/2) = 50 := by
    rw [pctOf, habs]
    norm_num
    rfl
  exact (c5_duty_mapping MotorName.A (1/2) (by rw [habs]; norm_num)).2.2
    (by rw [habs]; norm_num) (by rw [hpct]; norm_num [PURE_DC_THRESHOLD])

/-- C6.  Hit-disable lifecycle: a valid hit while not already hit
immediately zeroes all motor outputs and sets the hit state with a 10 s
remaining timer; each subsequent tick recomputes the remaining time from
the wall-clock elapsed time (motors held stopped); once the elapsed time
reaches `HIT_DISABLE_TIME` (and the power-save timeout has not elapsed)
the state returns to driving: hit cleared, standby de-latched, actuation
re-enabled. -/
theorem c6_hit_lifecycle (t : ℕ) (now now2 : ℚ) (s : RobotState)
    (hs : s.laser.is_hit = false) :
    (on_laser_hit t now s).motors
      = (stoppedChan, stoppedChan, stoppedChan, stoppedChan) ∧
    (on_laser_hit t now s).laser.is_hit = true ∧
    (on_laser_hit t now s).laser.time_remaining = HIT_DISABLE_TIME ∧
    (on_laser_hit t now s).laser.hit_time = now ∧
    (now2 - now < HIT_DISABLE_TIME →
      (control_tick now2 (on_laser_hit t now s)).laser.is_hit = true ∧
      (control_tick now2 (on_laser_hit t now s)).laser.time_remaining
        = max 0 (HIT_DISABLE_TIME - (now2 - now)) ∧
      (control_tick now2 (on_laser_hit t now s)).motors
        = (stoppedChan, stoppedChan, stoppedChan, stoppedChan)) ∧
    (HIT_DISABLE_TIME ≤ now2 - now →
      now2 - s.last_input_time ≤ POWER_SAVE_TIMEOUT_S →
      (control_tick now2 (on_laser_hit t now s)).laser.is_hit = false ∧
      (control_tick now2 (on_laser_hit t now s)).in_standby = false ∧
      (control_tick now2 (on_laser_hit t now s)).stby = (true, true)) := by
  rw [on_laser_hit_eq t now s hs]
  refine ⟨rfl, rfl, rfl, rfl, ?_, ?_⟩
  · intro hlt
    rw [control_tick_hit_active _ _ rfl (not_le.mpr hlt)]
    simp [stop_all_motors]
  · intro hge hps
    exact control_tick_hit_expired _ _ rfl hge (not_lt.mpr hps)

/-- Closed instance of C6: hit at time 0 from the startup state, expiring
at the tick at time 10. -/
theorem c6_hit_lifecycle_witness :
    (on_laser_hit 3 0 (initState 0)).motors
      = (stoppedChan, stoppedChan, stoppedChan, stoppedChan) ∧
    (control_tick 10 (on_laser_hit 3 0 (initState 0))).laser.is_hit = false ∧
    (control_tick 10 (on_laser_hit 3 0 (initState 0))).in_standby = false ∧
    (control_tick 10 (on_laser_hit 3 0 (initState 0))).stby = (true, true) := by
  have h := c6_hit_lifecycle 3 0 10 (initState 0) rfl
  exact ⟨h.1, h.2.2.2.2.2 (by norm_num [HIT_DISABLE_TIME])
    (by norm_num [initState, POWER_SAVE_TIMEOUT_S])⟩

/-- C7.  Hit-while-disabled idempotence: any further hit delivered while
`is_hit` already holds leaves the entire state unchanged — no
retriggering, no extension of the remaining disable time. -/
theorem c7_hit_ignored (t : ℕ) (now : ℚ) (s : RobotState)
    (h : s.laser.is_hit = true) : on_laser_hit t now s = s := by
  simp [on_laser_hit, h]

/-- Closed instance of C7 on a hit state. -/
theorem c7_hit_ignored_witness :
    on_laser_hit 3 5 exampleHitState = exampleHitState :=
  c7_hit_ignored 3 5 exampleHitState rfl

/-- C8.  Fire suppression while disabled: when the robot is hit,
`send_team_id` returns without transmitting, and the datagram handler does
not dispatch a transmission thread for a `fire = true` command. -/
theorem c8_fire_suppression (tid : ℕ) (msg : Msg) (now : ℚ) (s : RobotState)
    (h : s.laser.is_hit = true) :
    send_team_id s.laser.is_hit tid = none ∧
    (datagram_received msg now s).2 = false := by
  constructor
  · rw [h]
    simp [send_team_id]
  · simp [datagram_received, h]

/-- Closed instance of C8 on a hit state with a fire-only datagram. -/
theorem c8_fire_suppression_witness :
    send_team_id exampleHitState.laser.is_hit 7 = none ∧
    (datagram_received fireMsg 1 exampleHitState).2 = false :=
  c8_fire_suppression 7 fireMsg 1 exampleHitState rfl

/-- C9.  Safety stop: on any tick where estop is asserted or more than
0.8 s has passed since the last command, all motor outputs are forced to
zero regardless of the cached drive values; by itself (no active hit) this
changes neither the standby latch, nor the laser state, nor the STBY
pins. -/
theorem c9_safety_stop (now : ℚ) (s : RobotState)
    (h : s.estop = true ∨ COMMAND_TIMEOUT_S < now - s.last_cmd_time) :
    (control_tick now s).motors
      = (stoppedChan, stoppedChan, stoppedChan, stoppedChan) ∧
    (s.laser.is_hit = false →
      (control_tick now s).in_standby = s.in_standby ∧
      (control_tick now s).laser = s.laser ∧
      (control_tick now s).stby = s.stby) := by
  constructor
  · simp only [control_tick]
    obtain ⟨he, hc, -, -⟩ := laser_timer_tick_fields now s
    rw [motor_logic_tick_stop _ _ (Or.inr (by rw [he, hc]; exact h))]
    simp [stop_all_motors]
  · intro hnh
    simp only [control_tick, laser_timer_tick_not_hit now s hnh]
    rw [motor_logic_tick_stop _ _ (Or.inr h)]
    simp [stop_all_motors]

/-- Closed instance of C9 with estop asserted. -/
theorem c9_safety_stop_witness :
    (control_tick 0 exampleEstopState).motors
      = (stoppedChan, stoppedChan, stoppedChan, stoppedChan) ∧
    (control_tick 0 exampleEstopState).in_standby = exampleEstopState.in_standby ∧
    (control_tick 0 exampleEstopState).laser = exampleEstopState.laser ∧
    (control_tick 0 exampleEstopState).stby = exampleEstopState.stby :=
  ⟨(c9_safety_stop 0 exampleEstopState (Or.inl rfl)).1,
   (c9_safety_stop 0 exampleEstopState (Or.inl rfl)).2 rfl⟩

/-- C10.  Every accepted hit de-energizes the motor-driver stage in the
same callback: `on_laser_hit` writes both STBY pins low and leaves the
`in_standby` flag unchanged (so still false); the control tick re-energizes
the pins only when the hit timer has expired; a datagram never touches the
pins while `in_standby` is false and re-energizes them only when
`in_standby` holds and the updated command exceeds the 0.05 deadband on an
axis or asserts estop. -/
theorem c10_hit_deenergizes :
    (∀ (t : ℕ) (now : ℚ) (s : RobotState), s.laser.is_hit = false →
      (on_laser_hit t now s).stby = (false, false) ∧
      (on_laser_hit t now s).in_standby = s.in_standby) ∧
    (∀ (now : ℚ) (s : RobotState), s.stby.1 = false →
      (control_tick now s).stby.1 = true →
      s.laser.is_hit = true ∧ HIT_DISABLE_TIME ≤ now - s.laser.hit_time) ∧
    (∀ (msg : Msg) (now : ℚ) (s : RobotState), s.in_standby = false →
      (datagram_received msg now s).1.stby = s.stby) ∧
    (∀ (msg : Msg) (now : ℚ) (s : RobotState), s.stby.1 = false →
      (datagram_received msg now s).1.stby.1 = true →
      s.in_standby = true ∧
      (1/20 < |(datagram_received msg now s).1.vx| ∨
       1/20 < |(datagram_received msg now s).1.vy| ∨
       1/20 < |(datagram_received msg now s).1.omega| ∨
       (datagram_received msg now s).1.estop = true)) := by
  refine ⟨?_, ?_, ?_, ?_⟩
  · intro t now s h
    rw [on_laser_hit_eq t now s h]
    exact ⟨rfl, rfl⟩
  · intro now s h1 h2
    by_cases hh : s.laser.is_hit = true
    · by_cases hexp : HIT_DISABLE_TIME ≤ now - s.laser.hit_time
      · exact ⟨hh, hexp⟩
      · exfalso
        rw [control_tick_hit_active now s hh hexp] at h2
        have hf : (stop_all_motors { s with laser := { s.laser with
            time_remaining := max 0 (HIT_DISABLE_TIME - (now - s.laser.hit_time)) } }).stby.1
            = false := h1
        rw [hf] at h2
        exact absurd h2 (by decide)
    · exfalso
      have hh' : s.laser.is_hit = false := by simpa using hh
      simp only [control_tick, laser_timer_tick_not_hit now s hh'] at h2
      have hf := motor_logic_tick_stby_false now s h1
      rw [hf] at h2
      exact absurd h2 (by decide)
  · intro msg now s h
    simp [datagram_received, h]
  · intro msg now s h1 h2
    simp only [datagram_received] at h2 ⊢
    split_ifs at h2 ⊢ with hc
    · exact ⟨hc.1, hc.2⟩
    · exfalso
      simp [h1] at h2

/-- Closed instance of C10: a hit from the startup state writes the STBY
pins low without latching standby, and a fire-only datagram while not in
standby leaves the pins untouched. -/
theorem c10_hit_deenergizes_witness :
    ((on_laser_hit 2 0 (initState 0)).stby = (false, false) ∧
     (on_laser_hit 2 0 (initState 0)).in_standby = (initState 0).in_standby) ∧
    (datagram_received fireMsg 1 (initState 0)).1.stby = (initState 0).stby :=
  ⟨c10_hit_deenergizes.1 2 0 (initState 0) rfl,
   c10_hit_deenergizes.2.2.1 fireMsg 1 (initState 0) rfl⟩

end Pi
